import Mathlib

/-!
Verification of the adaptive challenge engine of the working-memory trainer.

The Python source is shallowly embedded: dictionaries become structures,
in-place dictionary mutation becomes record update, machine floats
(response times, display durations) become exact rationals, and every
call to the random module becomes an explicit oracle argument (a drawn
number, coin, or shuffle), so that "for every outcome of the random
draws" is ordinary universal quantification.
-/

/-- Per-game progress document, from the `load_game_progress` defaults in
`save_load.py`; exactly the fields read and written by `update_progress`
in `game_session.py`. -/
structure ProgressRecord where
  level : ℕ
  upgrade : ℤ
  highest_level_reached : ℕ
  total_challenges : ℕ
  successful_challenges : ℕ
  current_streak : ℕ
  longest_streak : ℕ
  avg_response_time : ℚ
deriving DecidableEq

/-- History entry appended by `update_progress` in `game_session.py`
(the wall-clock timestamp string is not modelled). -/
structure HistoryEntry where
  game : String
  level : ℕ
  success : Bool
  response_time : ℚ
  upgrade_progress : ℤ
  user_answer : Option (List ℕ)
deriving DecidableEq

/-- `update_progress` from `game_session.py` (lines 58-115).  The Python
function loads the progress document for `game`, mutates it, saves it and
appends a history entry; here the loaded document is the argument `g` and
the saved document and entry are the returned pair (the document-store
calls themselves are modelled separately, see `load_json_file`). -/
def update_progress (game : String) (g : ProgressRecord) (success : Bool)
    (response_time : ℚ) (user_answer : Option (List ℕ)) :
    ProgressRecord × HistoryEntry :=
  let total := g.total_challenges + 1
  let successful := if success then g.successful_challenges + 1 else g.successful_challenges
  let streak := if success then g.current_streak + 1 else 0
  let upgrade1 : ℤ := if success then g.upgrade + 1 else g.upgrade - 1
  let longest := if g.longest_streak < streak then streak else g.longest_streak
  let old_total := total - 1
  let avg : ℚ :=
    if old_total = 0 then response_time
    else (g.avg_response_time * (old_total : ℚ) + response_time) / (total : ℚ)
  let level_before := g.level
  -- the level up / level down check, mutating (level, upgrade, highest_level_reached)
  let lud : ℕ × ℤ × ℕ :=
    if 10 ≤ upgrade1 ∧ g.level < 10 then
      let lvl := g.level + 1
      (lvl, 0,
        if g.highest_level_reached < lvl then lvl else g.highest_level_reached)
    else if upgrade1 ≤ -5 ∧ 1 < g.level then
      (g.level - 1, 0, g.highest_level_reached)
    else (g.level, upgrade1, g.highest_level_reached)
  let updated : ProgressRecord :=
    { level := lud.1, upgrade := lud.2.1, highest_level_reached := lud.2.2,
      total_challenges := total, successful_challenges := successful,
      current_streak := streak, longest_streak := longest,
      avg_response_time := avg }
  let entry : HistoryEntry :=
    { game := game, level := level_before, success := success,
      response_time := response_time, upgrade_progress := lud.2.1,
      user_answer :=
        match user_answer with
        | none => none
        | some l => if l = [] then none else some l }
  (updated, entry)

/-- The ProgressRecord invariants of the spec: `level` in `[1,10]`,
`successful_challenges ≤ total_challenges`, `highest_level_reached ≥ level`,
and `avg_response_time` is the running mean of the (non-negative) response
times of all recorded challenges of this kind. -/
def progress_invariant (g : ProgressRecord) : Prop :=
  1 ≤ g.level ∧ g.level ≤ 10 ∧
  g.successful_challenges ≤ g.total_challenges ∧
  g.level ≤ g.highest_level_reached ∧
  ∃ ts : List ℚ, ts.length = g.total_challenges ∧ (∀ t ∈ ts, 0 ≤ t) ∧
    (g.total_challenges ≠ 0 → g.avg_response_time = ts.sum / (g.total_challenges : ℚ))

/-- The progress document a game starts from (`load_game_progress` defaults). -/
def default_progress : ProgressRecord :=
  { level := 1, upgrade := 0, highest_level_reached := 1, total_challenges := 0,
    successful_challenges := 0, current_streak := 0, longest_streak := 0,
    avg_response_time := 0 }

/-- `random.randint(a, b)` (both ends inclusive): the oracle `draw` selects
an element of `[a, b]`; every value in the interval is reachable. -/
def py_randint (a b draw : ℕ) : ℕ := a + draw % (b + 1 - a)

/-- `random.choice(l)`: the oracle `draw` selects an index into `l`
(never out of range for the nonempty lists the source applies it to). -/
def py_choice {α : Type} [Inhabited α] (l : List α) (draw : ℕ) : α :=
  l.getD (draw % l.length) default

/-- Digit-span challenge configuration (`next_challenge` document of
`digit_span/digit_span.py`). -/
structure DigitSpanConfig where
  sequence_length : ℕ
  display_time : ℚ
  inter_digit_delay : ℚ
  backward : Bool
  interference_task : Bool
  selective_recall : Bool
  ordering : Bool
  instruction : String
deriving DecidableEq

/-- Digit-span meta-parameters (`game_meta_parameters.digit_span` in the
settings document; `load_settings` and the KeyError fallback in
`digit_span/digit_span.py` use the same built-in values). -/
structure DigitSpanMeta where
  backward_intro_level : ℕ
  interference_intro_level : ℕ
  selective_recall_intro_level : ℕ
  ordering_intro_level : ℕ
  base_display_time : ℚ
  display_time_reduction_per_level : ℚ
  base_delay_time : ℚ
  delay_time_reduction_per_level : ℚ
  min_digits_level_1 : ℕ
  max_additional_digits_per_level : ℕ
deriving DecidableEq

/-- The built-in digit-span meta-parameters. -/
def default_digit_span_meta : DigitSpanMeta :=
  { backward_intro_level := 4, interference_intro_level := 7,
    selective_recall_intro_level := 8, ordering_intro_level := 9,
    base_display_time := 1, display_time_reduction_per_level := 1/10,
    base_delay_time := 1/2, delay_time_reduction_per_level := 1/20,
    min_digits_level_1 := 3, max_additional_digits_per_level := 1 }

/-- `get_instruction_text` from `digit_span/digit_span.py`. -/
def get_instruction_text (config : DigitSpanConfig) : String :=
  let instruction := "Remember the sequence"
  let instruction :=
    if config.backward then instruction ++ " and repeat it BACKWARD"
    else if config.selective_recall then instruction ++ " but only repeat ODD digits"
    else if config.ordering then instruction ++ " and repeat it in ASCENDING order"
    else instruction
  if config.interference_task then instruction ++ " (with math problem)"
  else instruction

/-- `generate_next_challenge_config` from `digit_span/digit_span.py`
(lines 189-264).  The four `random.choice([True, False])` draws become the
four coin arguments; a coin is only consulted once the level has reached
the corresponding introduction threshold. -/
def ds_generate_next_challenge_config (level : ℕ) (meta : DigitSpanMeta)
    (coin_backward coin_interference coin_selective coin_ordering : Bool) :
    DigitSpanConfig :=
  let backward0 := if meta.backward_intro_level ≤ level then coin_backward else false
  let interference := if meta.interference_intro_level ≤ level then coin_interference else false
  let selective0 := if meta.selective_recall_intro_level ≤ level then coin_selective else false
  -- selective recall is not combined with backward
  let backward1 := if selective0 then false else backward0
  let ordering := if meta.ordering_intro_level ≤ level then coin_ordering else false
  -- ordering is not combined with the other complex tasks
  let backward2 := if ordering then false else backward1
  let selective1 := if ordering then false else selective0
  let config : DigitSpanConfig :=
    { sequence_length :=
        meta.min_digits_level_1 + (level - 1) * meta.max_additional_digits_per_level,
      display_time :=
        max (3/10 : ℚ)
          (meta.base_display_time - ((level - 1 : ℕ) : ℚ) * meta.display_time_reduction_per_level),
      inter_digit_delay :=
        max (1/10 : ℚ)
          (meta.base_delay_time - ((level - 1 : ℕ) : ℚ) * meta.delay_time_reduction_per_level),
      backward := backward2, interference_task := interference,
      selective_recall := selective1, ordering := ordering, instruction := "" }
  { config with instruction := get_instruction_text config }

/-- `generate_sequence` from `digit_span/digit_span.py` (lines 282-299).
`digit_draws i` is the oracle for the i-th `random.randint(0, 9)`;
`pos_draw` and `odd_draw` are the oracles for the replacement position
and the odd replacement digit used when selective recall finds no odd
digit in the draw. -/
def ds_generate_sequence (config : DigitSpanConfig) (digit_draws : ℕ → ℕ)
    (pos_draw odd_draw : ℕ) : List ℕ :=
  let length := config.sequence_length
  let sequence := (List.range length).map (fun i => py_randint 0 9 (digit_draws i))
  if config.selective_recall && !(sequence.any (fun d => d % 2 == 1)) then
    sequence.set (py_randint 0 (length - 1) pos_draw) (py_choice [1, 3, 5, 7, 9] odd_draw)
  else sequence

/-- `get_expected_answer` from `digit_span/digit_span.py` (lines 551-567).
Python's `sorted` is rendered as an insertion sort; over natural numbers
both produce the unique ascending reordering. -/
def get_expected_answer (sequence : List ℕ) (config : DigitSpanConfig) : List ℕ :=
  if config.backward then sequence.reverse
  else if config.selective_recall then sequence.filter (fun d => d % 2 == 1)
  else if config.ordering then sequence.insertionSort (· ≤ ·)
  else sequence

/-- The feedback messages `validate_user_answer` can produce, one
constructor per format string. -/
inductive Feedback where
  | correct
  | wrongLength (expectedLen gotLen : ℕ)
  | wrongOrder (correctPositions expectedLen : ℕ)
  | positionCount (correctPositions expectedLen : ℕ)
deriving DecidableEq

/-- `sum(1 for u, e in zip(user_answer, expected) if u == e)` -/
def correct_positions (user_answer expected : List ℕ) : ℕ :=
  ((user_answer.zip expected).filter (fun p => p.1 == p.2)).length

/-- `validate_user_answer` from `digit_span/digit_span.py` (lines 580-598). -/
def validate_user_answer (user_answer expected : List ℕ)
    (config : DigitSpanConfig) : Feedback :=
  if user_answer = expected then .correct
  else if user_answer.length ≠ expected.length then
    .wrongLength expected.length user_answer.length
  else if user_answer.insertionSort (· ≤ ·) = expected.insertionSort (· ≤ ·)
          ∧ config.ordering = false then
    .wrongOrder (correct_positions user_answer expected) expected.length
  else
    .positionCount (correct_positions user_answer expected) expected.length

/-- The default digit-span `next_challenge` (from `load_progress` in
`digit_span/digit_span.py`): forward recall, no flags. -/
def forward_config : DigitSpanConfig :=
  { sequence_length := 3, display_time := 1, inter_digit_delay := 1/2,
    backward := false, interference_task := false, selective_recall := false,
    ordering := false, instruction := "Remember the sequence of digits" }

/-- Key events the digit-span answer loop in `get_user_response`
(`digit_span/digit_span.py`, lines 493-549) reacts to.  `ctrlC` covers
both the key code 3 and a `KeyboardInterrupt`; any digit key carries its
value. -/
inductive DsKey where
  | ctrlC
  | keyM
  | enter
  | backspace
  | digit (d : Fin 10)
  | other
deriving DecidableEq

/-- The answer-input loop of `get_user_response` in
`digit_span/digit_span.py` (lines 457-549).  `expected` is the expected
answer, `elapsed` the response time measured at a successful submit,
`keys` the remaining key events and `input` the current text of the input
field (a string of digit characters, kept as the digit values).  `none`
means the loop is still waiting for input when the oracle runs out.  The
maximum input length is 20. -/
def ds_input_loop (expected : List ℕ) (elapsed : ℚ) :
    List DsKey → List ℕ → Option (Bool × ℚ × List ℕ)
  | [], _ => none
  | k :: ks, input =>
    match k with
    | .ctrlC => some (false, 0, [])
    | .keyM => some (false, 0, [])
    | .enter =>
      if input = expected then some (true, elapsed, input)
      else ds_input_loop expected elapsed ks input
    | .backspace => ds_input_loop expected elapsed ks input.dropLast
    | .digit d =>
      ds_input_loop expected elapsed ks
        (if input.length < 20 then input ++ [(d : ℕ)] else input)
    | .other => ds_input_loop expected elapsed ks input

/-- Python's comparison on coordinate pairs (used by `pattern.sort()` and
`sorted(selected_cells)`): lexicographic order. -/
def pair_le (a b : ℕ × ℕ) : Prop := a.1 < b.1 ∨ (a.1 = b.1 ∧ a.2 ≤ b.2)

instance pair_le_dec : DecidableRel pair_le := fun a b =>
  inferInstanceAs (Decidable (a.1 < b.1 ∨ (a.1 = b.1 ∧ a.2 ≤ b.2)))

instance pair_le_total : IsTotal (ℕ × ℕ) pair_le :=
  ⟨by rintro ⟨a1, a2⟩ ⟨b1, b2⟩; simp only [pair_le]; omega⟩

instance pair_le_trans : IsTrans (ℕ × ℕ) pair_le :=
  ⟨by rintro ⟨a1, a2⟩ ⟨b1, b2⟩ ⟨c1, c2⟩ hab hbc; simp only [pair_le] at *; omega⟩

instance pair_le_antisymm : IsAntisymm (ℕ × ℕ) pair_le :=
  ⟨by rintro ⟨a1, a2⟩ ⟨b1, b2⟩ hab hba
      simp only [pair_le, Prod.mk.injEq] at *; omega⟩

/-- Spatial-pattern challenge configuration (`next_challenge` document of
`spatial_pattern/spatial_pattern.py`). -/
structure SpatialConfig where
  grid_size : ℕ
  pattern_size : ℕ
  display_time : ℚ
  interference : Bool
  use_multiple_highlights : Bool
  instruction : String
deriving DecidableEq

/-- Spatial-pattern meta-parameters
(`game_meta_parameters.spatial_pattern`). -/
structure SpatialMeta where
  grid_size_base : ℕ
  grid_size_increase_every_n_levels : ℕ
  max_grid_size : ℕ
  min_cells_level_1 : ℕ
  max_additional_cells_per_level : ℕ
  display_time_base : ℚ
  display_time_reduction_per_level : ℚ
  multiple_highlights_intro_level : ℕ
  interference_intro_level : ℕ
deriving DecidableEq

/-- The built-in spatial-pattern meta-parameters (`load_settings` defaults
in `spatial_pattern/spatial_pattern.py`, identical to the KeyError
fallback in its `generate_next_challenge_config`). -/
def default_spatial_meta : SpatialMeta :=
  { grid_size_base := 3, grid_size_increase_every_n_levels := 2,
    max_grid_size := 7, min_cells_level_1 := 3,
    max_additional_cells_per_level := 2, display_time_base := 3/2,
    display_time_reduction_per_level := 1/10,
    multiple_highlights_intro_level := 5, interference_intro_level := 7 }

/-- `get_instruction_text` from `spatial_pattern/spatial_pattern.py`
(apostrophes of the source text elided). -/
def sp_get_instruction_text (config : SpatialConfig) : String :=
  if config.interference then
    "Remember the pattern - You will solve a math problem before recalling"
  else if config.use_multiple_highlights then
    "Remember the pattern with " ++ toString config.pattern_size
      ++ " cells AND their highlight style"
  else
    "Remember the pattern with " ++ toString config.pattern_size
      ++ " highlighted cells"

/-- `generate_next_challenge_config` from
`spatial_pattern/spatial_pattern.py` (lines 227-296).  `size_draw` is the
oracle for `random.randint(min_cells, max_cells)`; the two coins are the
50% draws for interference and multiple highlights. -/
def sp_generate_next_challenge_config (level : ℕ) (meta : SpatialMeta)
    (size_draw : ℕ) (coin_interference coin_highlights : Bool) : SpatialConfig :=
  let grid_size_increase :=
    min ((level - 1) / meta.grid_size_increase_every_n_levels)
        (meta.max_grid_size - meta.grid_size_base)
  let grid_size := meta.grid_size_base + grid_size_increase
  let min_cells :=
    meta.min_cells_level_1 + (level - 1) * meta.max_additional_cells_per_level
  let max_cells :=
    min (min_cells + meta.max_additional_cells_per_level) (grid_size * grid_size - 1)
  let interference := if meta.interference_intro_level ≤ level then coin_interference else false
  let multiple := if meta.multiple_highlights_intro_level ≤ level then coin_highlights else false
  let config : SpatialConfig :=
    { grid_size := grid_size,
      pattern_size := py_randint min_cells max_cells size_draw,
      display_time :=
        max (1/2 : ℚ)
          (meta.display_time_base - ((level - 1 : ℕ) : ℚ) * meta.display_time_reduction_per_level),
      interference := interference, use_multiple_highlights := multiple,
      instruction := "" }
  { config with instruction := sp_get_instruction_text config }

/-- The position-sampling part of `generate_pattern` from
`spatial_pattern/spatial_pattern.py` (lines 307-319).
`random.sample(all_positions, pattern_size)` draws without replacement and
raises when `pattern_size` exceeds the population, which is the `none`
branch here; `shuffle` is the oracle ordering the population before the
first `pattern_size` positions are taken.  The pattern is then sorted, as
in the source.  (The highlight-style assignment of the source is
decorative and not modelled: positions alone decide correctness.) -/
def sp_generate_pattern (config : SpatialConfig)
    (shuffle : List (ℕ × ℕ) → List (ℕ × ℕ)) : Option (List (ℕ × ℕ)) :=
  let all_positions := (List.range config.grid_size).product (List.range config.grid_size)
  if config.pattern_size ≤ all_positions.length then
    some (((shuffle all_positions).take config.pattern_size).insertionSort pair_le)
  else none

/-- The submit step of the spatial `get_user_response`
(`spatial_pattern/spatial_pattern.py`, line 573):
`sorted(selected_cells) == sorted(pattern)`. -/
def sp_answer_correct (selected pattern : List (ℕ × ℕ)) : Bool :=
  decide (selected.insertionSort pair_le = pattern.insertionSort pair_le)

/-- The six game kinds of `wrapper.py`. -/
inductive GameKind where
  | digit_span
  | n_back
  | spatial_pattern
  | shopping_list
  | mental_math
  | story_details
deriving DecidableEq

instance : Inhabited GameKind := ⟨GameKind.digit_span⟩

/-- `STRATEGY_1_GAMES` from `wrapper.py`. -/
def STRATEGY_1_GAMES : List GameKind :=
  [.digit_span, .n_back, .spatial_pattern]

/-- `STRATEGY_2_GAMES` from `wrapper.py`. -/
def STRATEGY_2_GAMES : List GameKind :=
  [.shopping_list, .mental_math, .story_details]

/-- `ALL_GAMES` from `wrapper.py`. -/
def ALL_GAMES : List GameKind := STRATEGY_1_GAMES ++ STRATEGY_2_GAMES

/-- The three screens `handle_session_continuation` can show: the two
continuation-decision prompts (queue empty), and the plain
press-any-key passthrough (queue non-empty). -/
inductive SessionPrompt where
  | sessionComplete
  | continuePlaying
  | passthrough
deriving DecidableEq

/-- The recognized answers to a continuation prompt.  In the decision
branches the source loops until one of Q/Ctrl-C/M/Y/N/P arrives, so there
`choice` ranges over the first five constructors; `anyOther` only matters
in the passthrough branch, where any other key continues the session. -/
inductive ContinuationChoice where
  | quit
  | menu
  | yes
  | no
  | progress
  | anyOther
deriving DecidableEq

/-- `select_random_game` from `game_session.py` (`random.choice`). -/
def select_random_game (game_category : List GameKind) (draw : ℕ) : GameKind :=
  py_choice game_category draw

/-- `handle_session_continuation` from `game_session.py` (lines 117-230).
Returns the prompt that was shown, the `continue_session` flag and the
resulting queue.  `draws i` is the oracle of the i-th `select_random_game`
call of an extension (those calls are only reachable when `current_game`
is in none of the three lists). -/
def handle_session_continuation (games_queue : List GameKind)
    (challenges_completed : ℕ) (current_game : GameKind)
    (all_games strategy_1_games strategy_2_games : List GameKind)
    (choice : ContinuationChoice) (draws : ℕ → ℕ) :
    SessionPrompt × Bool × List GameKind :=
  let extended : List GameKind :=
    if current_game ∈ all_games then
      games_queue ++ List.replicate 4 current_game
    else if current_game ∈ strategy_1_games then
      games_queue ++ (List.range 4).map (fun i => select_random_game strategy_1_games (draws i))
    else if current_game ∈ strategy_2_games then
      games_queue ++ (List.range 4).map (fun i => select_random_game strategy_2_games (draws i))
    else
      games_queue ++ (List.range 4).map (fun i => select_random_game all_games (draws i))
  if games_queue = [] ∧ challenges_completed % 10 = 0 then
    (.sessionComplete,
      match choice with
      | .yes => (true, extended)
      | _ => (false, games_queue))
  else if games_queue = [] then
    (.continuePlaying,
      match choice with
      | .yes => (true, extended)
      | _ => (false, games_queue))
  else
    (.passthrough,
      match choice with
      | .quit => (false, games_queue)
      | .menu => (false, games_queue)
      | _ => (true, games_queue))

/-- The menu outcomes `get_game_for_session` distinguishes. -/
inductive MenuChoice where
  | game (g : GameKind)
  | randomStrategy1
  | randomStrategy2
  | randomAll
deriving DecidableEq

/-- `get_game_for_session` from `main_menu.py` (lines 451-490).
`challenges_per_session` is the configured batch size N; `draws i` is the
oracle of the i-th `random.choice`. -/
def get_game_for_session (choice : MenuChoice) (challenges_per_session : ℕ)
    (all_games strategy_1_games strategy_2_games : List GameKind)
    (draws : ℕ → ℕ) : List GameKind :=
  match choice with
  | .game g => List.replicate challenges_per_session g
  | .randomStrategy1 =>
    (List.range challenges_per_session).map (fun i => py_choice strategy_1_games (draws i))
  | .randomStrategy2 =>
    (List.range challenges_per_session).map (fun i => py_choice strategy_2_games (draws i))
  | .randomAll =>
    (List.range challenges_per_session).map (fun i => py_choice all_games (draws i))

/-- Stored content of one document of the JSON store: missing file,
decodable content, or content `json.load` rejects. -/
inductive FileContent (Doc : Type) where
  | absent
  | valid (d : Doc)
  | corrupt
deriving DecidableEq

/-- The exceptions `save_load.py` can meet: a missing file, a decode
failure, and an operating-system error during a write. -/
inductive PersistenceError where
  | fileNotFound
  | decodeError
  | ioError
deriving DecidableEq

/-- `load_json_file` from `save_load.py` (lines 22-60), returning the
loaded document and the resulting file content, or the propagated
exception.  `write_ok` is the environment oracle deciding whether a write
attempt succeeds.  Branches, as in the source: an existing valid file is
read; an absent file is written with the default inside the `try` block
(a failing write is caught by the catch-all handler, which still returns
the default); a corrupt file is rewritten with the default inside the
`except json.JSONDecodeError` handler, where a failing write propagates
(sibling handlers of the same `try` do not catch it); without a default
the error is re-raised. -/
def load_json_file {Doc : Type} (fs : FileContent Doc) (write_ok : Bool)
    (default : Option Doc) : Except PersistenceError (Doc × FileContent Doc) :=
  match fs with
  | .valid d => .ok (d, .valid d)
  | .absent =>
    match default with
    | some d => if write_ok then .ok (d, .valid d) else .ok (d, .absent)
    | none => .error .fileNotFound
  | .corrupt =>
    match default with
    | some d => if write_ok then .ok (d, .valid d) else .error .ioError
    | none => .error .decodeError

/-- The `open`/`json.dump`/`fsync` block of `save_json_file`: succeeds or
raises an I/O error, by the oracle `write_ok`. -/
def attempt_write {Doc : Type} (d : Doc) (write_ok : Bool) :
    Except PersistenceError (FileContent Doc) :=
  if write_ok then .ok (.valid d) else .error .ioError

/-- `save_json_file` from `save_load.py` (lines 62-86): the write attempt
is wrapped in `try`/`except`, and the result is reported as a boolean
(with the resulting file content alongside), never as an exception. -/
def save_json_file {Doc : Type} (fs : FileContent Doc) (d : Doc)
    (write_ok : Bool) : Bool × FileContent Doc :=
  match attempt_write d write_ok with
  | .ok fs2 => (true, fs2)
  | .error _ => (false, fs)

/-- Claim C1: one call to `update_progress` applies exactly the specified
transition: `total_challenges` is incremented; on success
`successful_challenges`, `current_streak` and `upgrade` each gain 1; on
failure `current_streak` resets to 0 and `upgrade` drops by 1; then, with
`u1` the updated upgrade counter, if `u1 ≥ 10` and `level < 10` the level
is incremented, upgrade reset to 0 and `highest_level_reached` raised if
exceeded, else if `u1 ≤ -5` and `level > 1` the level is decremented and
upgrade reset to 0 (at most one fires, level-up checked first); and the
appended history entry records the level as it was before any level
change. -/
theorem update_progress_transition (game : String) (g : ProgressRecord)
    (s : Bool) (rt : ℚ) (ua : Option (List ℕ)) :
    (update_progress game g s rt ua).1.total_challenges = g.total_challenges + 1 ∧
    (update_progress game g s rt ua).1.successful_challenges
      = (if s then g.successful_challenges + 1 else g.successful_challenges) ∧
    (update_progress game g s rt ua).1.current_streak
      = (if s then g.current_streak + 1 else 0) ∧
    (update_progress game g s rt ua).1.level
      = (if 10 ≤ (if s then g.upgrade + 1 else g.upgrade - 1) ∧ g.level < 10
         then g.level + 1
         else if (if s then g.upgrade + 1 else g.upgrade - 1) ≤ -5 ∧ 1 < g.level
         then g.level - 1 else g.level) ∧
    (update_progress game g s rt ua).1.upgrade
      = (if 10 ≤ (if s then g.upgrade + 1 else g.upgrade - 1) ∧ g.level < 10
         then 0
         else if (if s then g.upgrade + 1 else g.upgrade - 1) ≤ -5 ∧ 1 < g.level
         then 0 else (if s then g.upgrade + 1 else g.upgrade - 1)) ∧
    (update_progress game g s rt ua).1.highest_level_reached
      = (if 10 ≤ (if s then g.upgrade + 1 else g.upgrade - 1) ∧ g.level < 10
         then max g.highest_level_reached (g.level + 1)
         else g.highest_level_reached) ∧
    (update_progress game g s rt ua).2.level = g.level := by
  refine ⟨rfl, rfl, rfl, ?_, ?_, ?_, rfl⟩ <;>
    · simp only [update_progress]
      split_ifs <;> (try simp) <;> (try omega)

/-- Claim C2: `update_progress` preserves the ProgressRecord invariants;
in particular the level never leaves `[1,10]`. -/
theorem update_progress_preserves_invariant (game : String) (g : ProgressRecord)
    (s : Bool) (rt : ℚ) (ua : Option (List ℕ))
    (hg : progress_invariant g) (hrt : 0 ≤ rt) :
    progress_invariant ((update_progress game g s rt ua).1) := by
  obtain ⟨h1, h2, h3, h4, ts, hlen, hpos, havg⟩ := hg
  refine ⟨?_, ?_, ?_, ?_, ts ++ [rt], ?_, ?_, ?_⟩
  · simp only [update_progress]; split_ifs <;> (try simp) <;> (try omega)
  · simp only [update_progress]; split_ifs <;> (try simp) <;> (try omega)
  · simp only [update_progress]; split_ifs <;> (try simp) <;> (try omega)
  · simp only [update_progress]; split_ifs <;> (try simp) <;> (try omega)
  · simp only [update_progress]; simp [hlen]
  · intro t ht
    rcases List.mem_append.1 ht with h | h
    · exact hpos t h
    · simp only [List.mem_singleton] at h; exact h ▸ hrt
  · intro _
    show (if g.total_challenges + 1 - 1 = 0 then rt
          else (g.avg_response_time * ((g.total_challenges + 1 - 1 : ℕ) : ℚ) + rt)
               / ((g.total_challenges + 1 : ℕ) : ℚ))
        = (ts ++ [rt]).sum / ((g.total_challenges + 1 : ℕ) : ℚ)
    have hsum : (ts ++ [rt]).sum = ts.sum + rt := by simp
    rcases Nat.eq_zero_or_pos g.total_challenges with h0 | h0
    · have hts : ts = [] := List.length_eq_zero.1 (by omega)
      subst hts
      rw [if_pos (by omega)]
      simp [h0]
    · have hne : g.total_challenges ≠ 0 := by omega
      have hcast : ((g.total_challenges : ℚ)) ≠ 0 := by exact_mod_cast hne
      rw [if_neg (by omega), havg hne, hsum]
      have hred : g.total_challenges + 1 - 1 = g.total_challenges := by omega
      rw [hred]
      field_simp
      try ring

/-- Witness for C2: the invariant holds for the default progress document
and is preserved by a successful challenge answered in 2 seconds. -/
theorem update_progress_preserves_invariant_witness :
    progress_invariant ((update_progress "digit_span" default_progress true 2 none).1) :=
  update_progress_preserves_invariant "digit_span" default_progress true 2 none
    ⟨le_refl 1, by norm_num [default_progress], le_refl 0, le_refl 1,
     [], rfl, by simp, fun h => absurd rfl h⟩ (by norm_num)
/-- A decidable linear sort is determined by the multiset of its input:
two lists have equal insertion sorts exactly when they are permutations
of one another. -/
theorem insertionSort_eq_iff_perm {α : Type} (r : α → α → Prop) [DecidableRel r]
    [IsTotal α r] [IsTrans α r] [IsAntisymm α r] (l₁ l₂ : List α) :
    l₁.insertionSort r = l₂.insertionSort r ↔ l₁.Perm l₂ := by
  constructor
  · intro h
    exact (List.perm_insertionSort r l₁).symm.trans (h ▸ List.perm_insertionSort r l₂)
  · intro h
    exact List.eq_of_perm_of_sorted
      ((List.perm_insertionSort r l₁).trans (h.trans (List.perm_insertionSort r l₂).symm))
      (List.sorted_insertionSort r l₁) (List.sorted_insertionSort r l₂)

/-- `py_randint` always lands in the requested interval. -/
theorem py_randint_bounds (a b d : ℕ) (h : a ≤ b) :
    a ≤ py_randint a b d ∧ py_randint a b d ≤ b := by
  unfold py_randint
  have hpos : 0 < b + 1 - a := by omega
  have := Nat.mod_lt d hpos
  omega

/-- `py_choice` on a nonempty list returns one of its elements. -/
theorem py_choice_mem {α : Type} [Inhabited α] (l : List α) (d : ℕ) (h : l ≠ []) :
    py_choice l d ∈ l := by
  unfold py_choice
  have hl : 0 < l.length := List.length_pos.2 h
  have hlt : d % l.length < l.length := Nat.mod_lt _ hl
  rw [List.getD_eq_getElem l default hlt]
  exact List.getElem_mem hlt

/-- Claim C3: grading succeeds exactly when the user answer equals the
expected answer (order-sensitive for digit sequences, set-equality of
positions for spatial patterns); on failure exactly one feedback message
is produced, by priority: a length-mismatch message when the lengths
differ; otherwise the correct-digits-wrong-order message when the two
lists carry the same multiset of values and ordering mode is not the
configured transformation; otherwise the generic message with the count
of positions matching by index. -/
theorem grading_spec (ua expected : List ℕ) (config : DigitSpanConfig)
    (selected pattern : List (ℕ × ℕ)) :
    (validate_user_answer ua expected config = .correct ↔ ua = expected) ∧
    (ua ≠ expected → ua.length ≠ expected.length →
      validate_user_answer ua expected config
        = .wrongLength expected.length ua.length) ∧
    (ua ≠ expected → ua.Perm expected → config.ordering = false →
      validate_user_answer ua expected config
        = .wrongOrder (correct_positions ua expected) expected.length) ∧
    (ua ≠ expected → ua.length = expected.length →
      ¬(ua.Perm expected ∧ config.ordering = false) →
      validate_user_answer ua expected config
        = .positionCount (correct_positions ua expected) expected.length) ∧
    (selected.Nodup → pattern.Nodup →
      (sp_answer_correct selected pattern = true ↔ ∀ x, x ∈ selected ↔ x ∈ pattern)) := by
  refine ⟨?_, ?_, ?_, ?_, ?_⟩
  · unfold validate_user_answer
    split_ifs with h1 h2 h3 <;> simp [h1]
  · intro hne hlen
    unfold validate_user_answer
    rw [if_neg hne, if_pos hlen]
  · intro hne hperm hord
    unfold validate_user_answer
    rw [if_neg hne, if_neg (not_ne_iff.2 hperm.length_eq),
        if_pos ⟨(insertionSort_eq_iff_perm _ _ _).2 hperm, hord⟩]
  · intro hne hlen hnot
    unfold validate_user_answer
    rw [if_neg hne, if_neg (not_ne_iff.2 hlen),
        if_neg (fun hc => hnot ⟨(insertionSort_eq_iff_perm _ _ _).1 hc.1, hc.2⟩)]
  · intro hnd1 hnd2
    unfold sp_answer_correct
    rw [decide_eq_true_eq, insertionSort_eq_iff_perm pair_le]
    exact List.perm_ext_iff_of_nodup hnd1 hnd2

/-- Witness for C3, the grading scenario of the spec: expected `[1,2,3]`
against user `[3,2,1]` in forward mode gives the wrong-order message. -/
theorem grading_spec_witness :
    validate_user_answer [3, 2, 1] [1, 2, 3] forward_config
      = Feedback.wrongOrder (correct_positions [3, 2, 1] [1, 2, 3])
          (List.length [1, 2, 3]) :=
  (grading_spec [3, 2, 1] [1, 2, 3] forward_config [] []).2.2.1
    (by decide) (by decide) rfl

/-- Claim C4: every digit-span configuration the generator can emit obeys
the mutual-exclusion policy: backward is never set together with
selective recall or ordering, and ordering is never set together with
selective recall — for every level, every meta-parameter document and
every outcome of the coin draws. -/
theorem ds_config_mutual_exclusion (level : ℕ) (meta : DigitSpanMeta)
    (cb ci cs co : Bool) :
    ((ds_generate_next_challenge_config level meta cb ci cs co).backward
      && ((ds_generate_next_challenge_config level meta cb ci cs co).selective_recall
          || (ds_generate_next_challenge_config level meta cb ci cs co).ordering)) = false ∧
    ((ds_generate_next_challenge_config level meta cb ci cs co).ordering
      && (ds_generate_next_challenge_config level meta cb ci cs co).selective_recall) = false := by
  simp only [ds_generate_next_challenge_config]
  split_ifs <;> simp_all

/-- Claim C5: the expected answer is derived by exactly one rule in
strict priority order: backward reverses, else selective recall keeps
the odd digits in original order, else ordering sorts ascending (a
sorted permutation of the stimulus), else the expected answer is the
stimulus itself (forward recall is the identity). -/
theorem expected_answer_priority (sequence : List ℕ) (config : DigitSpanConfig) :
    (config.backward = true →
      get_expected_answer sequence config = sequence.reverse) ∧
    (config.backward = false → config.selective_recall = true →
      get_expected_answer sequence config
        = sequence.filter (fun d => d % 2 == 1)) ∧
    (config.backward = false → config.selective_recall = false →
      config.ordering = true →
      List.Sorted (· ≤ ·) (get_expected_answer sequence config) ∧
        (get_expected_answer sequence config).Perm sequence) ∧
    (config.backward = false → config.selective_recall = false →
      config.ordering = false →
      get_expected_answer sequence config = sequence) := by
  refine ⟨?_, ?_, ?_, ?_⟩
  · intro hb; simp [get_expected_answer, hb]
  · intro hb hs; simp [get_expected_answer, hb, hs]
  · intro hb hs ho
    simp only [get_expected_answer, hb, hs, ho, Bool.false_eq_true, if_false, if_true]
    exact ⟨List.sorted_insertionSort _ _, List.perm_insertionSort _ _⟩
  · intro hb hs ho; simp [get_expected_answer, hb, hs, ho]

/-- Witness for C5, the round-trip of the spec: with no flags set the
expected answer equals the stimulus. -/
theorem expected_answer_priority_witness :
    get_expected_answer [3, 1, 2] forward_config = [3, 1, 2] :=
  (expected_answer_priority [3, 1, 2] forward_config).2.2.2 rfl rfl rfl

/-- Claim C6: with selective recall set and a positive sequence length,
every sequence the stimulus generator can produce has exactly
`sequence_length` digits, each in `[0, 9]`, and contains at least one
odd digit — for every outcome of the random draws. -/
theorem generate_sequence_selective_guarantee (config : DigitSpanConfig)
    (digit_draws : ℕ → ℕ) (pos_draw odd_draw : ℕ)
    (hsel : config.selective_recall = true) (hlen : 1 ≤ config.sequence_length) :
    (ds_generate_sequence config digit_draws pos_draw odd_draw).length
      = config.sequence_length ∧
    (∀ d ∈ ds_generate_sequence config digit_draws pos_draw odd_draw, d ≤ 9) ∧
    (∃ d ∈ ds_generate_sequence config digit_draws pos_draw odd_draw, d % 2 = 1) := by
  have hbase9 : ∀ d ∈ (List.range config.sequence_length).map
      (fun i => py_randint 0 9 (digit_draws i)), d ≤ 9 := by
    intro d hd
    simp only [List.mem_map, List.mem_range] at hd
    obtain ⟨i, _, rfl⟩ := hd
    have h9 := py_randint_bounds 0 9 (digit_draws i) (by norm_num)
    omega
  by_cases hodd : ((List.range config.sequence_length).map
      (fun i => py_randint 0 9 (digit_draws i))).any (fun d => d % 2 == 1)
  · have heq : ds_generate_sequence config digit_draws pos_draw odd_draw
        = (List.range config.sequence_length).map
            (fun i => py_randint 0 9 (digit_draws i)) := by
      unfold ds_generate_sequence
      simp [hodd]
    rw [heq]
    refine ⟨by simp, hbase9, ?_⟩
    rw [List.any_eq_true] at hodd
    obtain ⟨x, hx, hxodd⟩ := hodd
    exact ⟨x, hx, by simpa using hxodd⟩
  · have hv := py_choice_mem [1, 3, 5, 7, 9] odd_draw (by simp)
    have hv9 : py_choice [1, 3, 5, 7, 9] odd_draw ≤ 9 := by
      simp only [List.mem_cons, List.not_mem_nil, or_false] at hv
      omega
    have hvodd : py_choice [1, 3, 5, 7, 9] odd_draw % 2 = 1 := by
      simp only [List.mem_cons, List.not_mem_nil, or_false] at hv
      omega
    have heq : ds_generate_sequence config digit_draws pos_draw odd_draw
        = ((List.range config.sequence_length).map
            (fun i => py_randint 0 9 (digit_draws i))).set
              (py_randint 0 (config.sequence_length - 1) pos_draw)
              (py_choice [1, 3, 5, 7, 9] odd_draw) := by
      unfold ds_generate_sequence
      simp [hodd, hsel]
    rw [heq]
    have hidx : py_randint 0 (config.sequence_length - 1) pos_draw
        < config.sequence_length := by
      have := py_randint_bounds 0 (config.sequence_length - 1) pos_draw (by omega)
      omega
    have hsetlen : py_randint 0 (config.sequence_length - 1) pos_draw
        < (((List.range config.sequence_length).map
            (fun i => py_randint 0 9 (digit_draws i))).set
              (py_randint 0 (config.sequence_length - 1) pos_draw)
              (py_choice [1, 3, 5, 7, 9] odd_draw)).length := by
      simpa using hidx
    refine ⟨by simp, ?_, ?_⟩
    · intro d hd
      rcases List.mem_or_eq_of_mem_set hd with h | rfl
      · exact hbase9 d h
      · exact hv9
    · refine ⟨py_choice [1, 3, 5, 7, 9] odd_draw, ?_, hvodd⟩
      have hm := List.getElem_mem hsetlen
      rwa [List.getElem_set_self hsetlen] at hm

/-- Witness for C6: a selective-recall configuration whose three digit
draws are all even forces an odd digit into the sequence. -/
theorem generate_sequence_selective_guarantee_witness :
    ∃ d ∈ ds_generate_sequence { forward_config with selective_recall := true }
      (fun _ => 0) 0 0, d % 2 = 1 :=
  (generate_sequence_selective_guarantee
    { forward_config with selective_recall := true }
    (fun _ => 0) 0 0 rfl (by decide)).2.2

/-- Claim C7: for every level in `[1, 10]` and the built-in
spatial-pattern meta-parameters, the generated configuration satisfies
`1 ≤ pattern_size ≤ grid_size * grid_size - 1` for every outcome of the
draws, so the position sampling of `generate_pattern` always succeeds
and its failure branch is unreachable. -/
theorem sp_config_pattern_size_safe (level size_draw : ℕ) (ci cm : Bool)
    (shuffle : List (ℕ × ℕ) → List (ℕ × ℕ))
    (h1 : 1 ≤ level) (h2 : level ≤ 10) :
    1 ≤ (sp_generate_next_challenge_config level default_spatial_meta
          size_draw ci cm).pattern_size ∧
    (sp_generate_next_challenge_config level default_spatial_meta
        size_draw ci cm).pattern_size
      ≤ (sp_generate_next_challenge_config level default_spatial_meta
          size_draw ci cm).grid_size
        * (sp_generate_next_challenge_config level default_spatial_meta
            size_draw ci cm).grid_size - 1 ∧
    (sp_generate_pattern
        (sp_generate_next_challenge_config level default_spatial_meta size_draw ci cm)
        shuffle).isSome = true := by
  have key : ∀ a b g : ℕ, a ≤ b → 1 ≤ a → b ≤ g * g - 1 → 1 ≤ g →
      ∀ sd ci2 cm2 dt ins,
      1 ≤ (SpatialConfig.mk g (py_randint a b sd) dt ci2 cm2 ins).pattern_size ∧
      (SpatialConfig.mk g (py_randint a b sd) dt ci2 cm2 ins).pattern_size
        ≤ (SpatialConfig.mk g (py_randint a b sd) dt ci2 cm2 ins).grid_size
          * (SpatialConfig.mk g (py_randint a b sd) dt ci2 cm2 ins).grid_size - 1 ∧
      (sp_generate_pattern (SpatialConfig.mk g (py_randint a b sd) dt ci2 cm2 ins)
          shuffle).isSome = true := by
    intro a b g hab ha hb hg sd ci2 cm2 dt ins
    obtain ⟨hlo, hhi⟩ := py_randint_bounds a b sd hab
    have hlenpop : ((List.range g).product (List.range g)).length = g * g := by
      have hp := List.length_product (List.range g) (List.range g)
      simpa using hp
    refine ⟨?_, ?_, ?_⟩
    · show 1 ≤ py_randint a b sd
      omega
    · show py_randint a b sd ≤ g * g - 1
      omega
    · show (if py_randint a b sd ≤ ((List.range g).product (List.range g)).length
            then some (((shuffle ((List.range g).product (List.range g))).take
                  (py_randint a b sd)).insertionSort pair_le)
            else none).isSome = true
      rw [if_pos (by rw [hlenpop]; omega)]
      rfl
  have hmain : (sp_generate_next_challenge_config level default_spatial_meta
      size_draw ci cm)
      = SpatialConfig.mk
          (3 + min ((level - 1) / 2) (7 - 3))
          (py_randint (3 + (level - 1) * 2)
            (min (3 + (level - 1) * 2 + 2)
              ((3 + min ((level - 1) / 2) (7 - 3))
                * (3 + min ((level - 1) / 2) (7 - 3)) - 1)) size_draw)
          (max (1/2 : ℚ) (3/2 - ((level - 1 : ℕ) : ℚ) * (1/10)))
          (if 7 ≤ level then ci else false)
          (if 5 ≤ level then cm else false)
          (sp_generate_next_challenge_config level default_spatial_meta
            size_draw ci cm).instruction := by
    simp [sp_generate_next_challenge_config, default_spatial_meta]
  rw [hmain]
  exact key _ _ _
    (by interval_cases level <;> decide)
    (by omega)
    (by interval_cases level <;> decide)
    (by omega)
    size_draw _ _ _ _

/-- Witness for C7: the level-1 configuration. -/
theorem sp_config_pattern_size_safe_witness :
    1 ≤ (sp_generate_next_challenge_config 1 default_spatial_meta
          0 false false).pattern_size ∧
    (sp_generate_next_challenge_config 1 default_spatial_meta
        0 false false).pattern_size
      ≤ (sp_generate_next_challenge_config 1 default_spatial_meta
          0 false false).grid_size
        * (sp_generate_next_challenge_config 1 default_spatial_meta
            0 false false).grid_size - 1 ∧
    (sp_generate_pattern
        (sp_generate_next_challenge_config 1 default_spatial_meta 0 false false)
        id).isSome = true :=
  sp_config_pattern_size_safe 1 0 false false id (by norm_num) (by norm_num)

/-- Counterexample to C8 as stated.  First: with the default batch size
N = 10, after 20 completed challenges (a multiple of N) but a non-empty
queue, the scheduler shows only the passthrough screen, not a
continuation decision — the multiple-of-batch-size condition of the claim
does not trigger a decision (and the source tests `% 10` regardless of
the configured N).  Second: for a session drawn from the whole category
(current game `spatial_pattern`, draws that `select_random_game` would
turn into `n_back`), the extend outcome still appends four copies of the
game just played, not four random category picks — every game is a member
of `ALL_GAMES`, so the session-type test classifies every session as
single-game. -/
theorem session_continuation_counterexample :
    (handle_session_continuation [GameKind.digit_span, GameKind.digit_span] 20
        GameKind.digit_span ALL_GAMES STRATEGY_1_GAMES STRATEGY_2_GAMES
        ContinuationChoice.yes (fun _ => 0)).1 = SessionPrompt.passthrough
    ∧ 20 % 10 = 0
    ∧ (handle_session_continuation [] 10 GameKind.spatial_pattern ALL_GAMES
        STRATEGY_1_GAMES STRATEGY_2_GAMES ContinuationChoice.yes (fun _ => 1)).2.2
      = List.replicate 4 GameKind.spatial_pattern
    ∧ (List.range 4).map (fun i => select_random_game ALL_GAMES ((fun _ => 1) i))
      = List.replicate 4 GameKind.n_back := by
  refine ⟨rfl, rfl, ?_, rfl⟩
  decide

/-- Claim C8 (amended): the scheduler presents a continuation decision
exactly when the queue is empty (the hard-coded `completed % 10` test
only selects which of the two decision prompts is shown); on the extend
outcome it appends exactly 4 copies of the game just played to the back
of the queue (every game kind is in `ALL_GAMES`, so every session is
classified single-game and the category-random extension branches are
unreachable); and the initial queue from a menu choice holds exactly N
challenges, a single game repeated N times or N random picks. -/
theorem session_continuation_amended (games_queue : List GameKind)
    (completed : ℕ) (current_game : GameKind) (choice : ContinuationChoice)
    (draws : ℕ → ℕ) (g : GameKind) (n : ℕ)
    (hmem : current_game ∈ ALL_GAMES) :
    ((handle_session_continuation games_queue completed current_game ALL_GAMES
        STRATEGY_1_GAMES STRATEGY_2_GAMES choice draws).1
        ≠ SessionPrompt.passthrough
      ↔ games_queue = []) ∧
    (games_queue = [] → choice = ContinuationChoice.yes →
      (handle_session_continuation games_queue completed current_game ALL_GAMES
          STRATEGY_1_GAMES STRATEGY_2_GAMES choice draws).2
        = (true, games_queue ++ List.replicate 4 current_game)) ∧
    get_game_for_session (MenuChoice.game g) n ALL_GAMES STRATEGY_1_GAMES
        STRATEGY_2_GAMES draws
      = List.replicate n g ∧
    (∀ mc : MenuChoice,
      (get_game_for_session mc n ALL_GAMES STRATEGY_1_GAMES STRATEGY_2_GAMES
          draws).length = n) := by
  refine ⟨?_, ?_, rfl, ?_⟩
  · unfold handle_session_continuation
    split_ifs with hA hB <;> simp_all
  · intro hq hc
    subst hq
    subst hc
    unfold handle_session_continuation
    split_ifs with hA hB <;> simp_all
  · intro mc
    cases mc <;> simp [get_game_for_session]

/-- Witness for C8 (amended): an empty queue after 10 challenges with
answer Y extends the queue by four copies of the current game. -/
theorem session_continuation_amended_witness :
    (handle_session_continuation [] 10 GameKind.digit_span ALL_GAMES
        STRATEGY_1_GAMES STRATEGY_2_GAMES ContinuationChoice.yes (fun _ => 0)).2
      = (true, [] ++ List.replicate 4 GameKind.digit_span) :=
  (session_continuation_amended [] 10 GameKind.digit_span
    ContinuationChoice.yes (fun _ => 0) GameKind.digit_span 10
    (by decide)).2.1 rfl rfl

/-- Counterexample to C9 as stated: with a corrupt stored document and a
default supplied, `load_json_file` rewrites the file inside the
`except json.JSONDecodeError` handler; when that write itself fails the
error propagates to the caller (the sibling catch-all of the same `try`
does not catch exceptions raised in a handler), so the load does raise
despite the default. -/
theorem load_json_file_counterexample :
    load_json_file (FileContent.corrupt : FileContent ℕ) false (some 0)
      = Except.error PersistenceError.ioError := rfl

/-- Claim C9 (amended): `load_json_file` creates and returns the default
when the document is absent (returning the default even when the creating
write fails), and overwrites the document with the default and returns it
on decode failure; with a default supplied it never raises to its caller,
except that an I/O failure while rewriting a corrupt document propagates.
`save_json_file` reports any write failure as a boolean False return
rather than raising. -/
theorem load_save_error_handling {Doc : Type} (d : Doc) (fs : FileContent Doc)
    (write_ok : Bool) :
    load_json_file FileContent.absent write_ok (some d)
      = Except.ok (d, if write_ok then FileContent.valid d else FileContent.absent) ∧
    load_json_file FileContent.corrupt true (some d)
      = Except.ok (d, FileContent.valid d) ∧
    (fs = FileContent.corrupt → write_ok = false →
      load_json_file fs write_ok (some d)
        = Except.error PersistenceError.ioError) ∧
    (¬(fs = FileContent.corrupt ∧ write_ok = false) →
      ∃ r, load_json_file fs write_ok (some d) = Except.ok r) ∧
    save_json_file fs d write_ok
      = (write_ok, if write_ok then FileContent.valid d else fs) := by
  refine ⟨?_, rfl, ?_, ?_, ?_⟩
  · cases write_ok <;> rfl
  · rintro rfl rfl
    rfl
  · intro h
    cases fs with
    | absent => cases write_ok <;> exact ⟨_, rfl⟩
    | valid x => exact ⟨_, rfl⟩
    | corrupt =>
      cases write_ok with
      | false => exact absurd ⟨rfl, rfl⟩ h
      | true => exact ⟨_, rfl⟩
  · cases write_ok <;> rfl

/-- Witness for C9 (amended): loading an existing valid document with a
default supplied succeeds. -/
theorem load_save_error_handling_witness :
    ∃ r, load_json_file (FileContent.valid 7) true (some 0) = Except.ok r :=
  (load_save_error_handling 0 (FileContent.valid 7) true).2.2.2.1 (by simp)

/-- Claim C10: the digit-span answer loop exits normally only when the
submitted answer equals the expected answer; every returned failure
result (menu return or cancellation) carries response time 0 and an
empty user answer. -/
theorem ds_input_loop_failure_shape (expected : List ℕ) (elapsed : ℚ)
    (keys : List DsKey) (input : List ℕ) (s : Bool) (rt : ℚ) (ua : List ℕ)
    (h : ds_input_loop expected elapsed keys input = some (s, rt, ua)) :
    (s = true → ua = expected ∧ rt = elapsed) ∧
    (s = false → rt = 0 ∧ ua = []) := by
  induction keys generalizing input with
  | nil => simp [ds_input_loop] at h
  | cons k ks ih =>
    cases k with
    | ctrlC =>
      simp only [ds_input_loop, Option.some.injEq, Prod.mk.injEq] at h
      obtain ⟨h1, h2, h3⟩ := h
      subst h1; subst h2; subst h3
      exact ⟨fun hs => Bool.noConfusion hs, fun _ => ⟨rfl, rfl⟩⟩
    | keyM =>
      simp only [ds_input_loop, Option.some.injEq, Prod.mk.injEq] at h
      obtain ⟨h1, h2, h3⟩ := h
      subst h1; subst h2; subst h3
      exact ⟨fun hs => Bool.noConfusion hs, fun _ => ⟨rfl, rfl⟩⟩
    | enter =>
      simp only [ds_input_loop] at h
      split_ifs at h with hin
      · simp only [Option.some.injEq, Prod.mk.injEq] at h
        obtain ⟨h1, h2, h3⟩ := h
        subst h1; subst h2; subst h3
        exact ⟨fun _ => ⟨hin, rfl⟩, fun hs => Bool.noConfusion hs⟩
      · exact ih _ h
    | backspace => exact ih _ h
    | digit d => exact ih _ h
    | other => exact ih _ h

/-- Witness for C10: pressing M returns a failure with response time 0
and an empty answer. -/
theorem ds_input_loop_failure_shape_witness :
    ds_input_loop [1] 5 [DsKey.keyM] [] = some (false, 0, []) ∧
    ((0 : ℚ) = 0 ∧ ([] : List ℕ) = []) :=
  ⟨rfl, (ds_input_loop_failure_shape [1] 5 [DsKey.keyM] [] false 0 [] rfl).2 rfl⟩
